import Mathlib

/-!
# gololcat: a verification development for `main.go`

A shallow embedding of the colour function `rgb`, the line renderer
`printLine`, the animator `animateLine`, the stream processor `processInput`,
the mode parser `parseColorMode`, and the driver `main`.

Modelling conventions.

* `float64` is read in the real numbers: `math.Sin` is `Real.sin`, `math.Pi`
  is `Real.pi`, `+` and `*` are exact, and the conversion `int(x)` is truncation
  toward zero (`toInt`). This is the reading in which the closed forms of the
  colour modes are stated; rounding error and the non-finite values NaN and
  ±Inf are outside it. Definitions that reach `Real.sin` are `noncomputable`,
  and their values at concrete inputs are established by proof. This reading
  serves the fixtures, whose values are finite and far from any rounding
  boundary.
* `rgbF64` is the same function in binary64, with rounding, overflow, NaN and
  the conversion `int(NaN)`; `math.Sin` is a parameter there except for its
  special cases. Statements that range over every configuration are made about
  `rgbF64`.
* `int` is `Int`; `time.Duration` is an `Int` number of nanoseconds.
* A `string` is a Lean `String`, a sequence of Unicode code points, so
  `[]rune(line)` is `line.toList` and `len([]rune(line))` its length. Input
  text is taken to be valid UTF-8.
* Library functions whose tables are not part of the program are parameters:
  `unicode.ToLower`, `time.ParseDuration`, `os.Open`.
* Writing and sleeping are recorded, in order, in a list of `Effect`s.
* `bufio.Scanner` is represented by what it yields: the successive lines and
  the final value of `scanner.Err()`.
-/

namespace Gololcat

/-! ## Data model -/

/-- The type `ColorMode` is declared `type ColorMode int`. -/
abbrev ColorMode := Int

/-- Constant `Rainbow ColorMode = iota`. -/
@[reducible] def Rainbow : ColorMode := 0
/-- Constant `Fire`. -/
@[reducible] def Fire : ColorMode := 1
/-- Constant `Ocean`. -/
@[reducible] def Ocean : ColorMode := 2
/-- Constant `Matrix`. -/
@[reducible] def Matrix : ColorMode := 3
/-- Constant `Pastel`. -/
@[reducible] def Pastel : ColorMode := 4

/-- The record `Config`. -/
structure Config where
  mode : ColorMode
  speed : ℝ
  spread : ℝ
  frequency : ℝ
  animate : Bool
  delay : Int
  force : Bool
  help : Bool

/-- One observable action of the program, in program order. -/
inductive Effect where
  | stdout (s : String)
  | stderr (s : String)
  | sleep (d : Int)
deriving DecidableEq

/-- The text written to standard output by a trace. -/
def stdoutText : List Effect → String
  | [] => ""
  | Effect.stdout s :: rest => s ++ stdoutText rest
  | _ :: rest => stdoutText rest

/-- The waits of a trace, in order. -/
def sleeps : List Effect → List Int
  | [] => []
  | Effect.sleep d :: rest => d :: sleeps rest
  | _ :: rest => sleeps rest

/-! ## The colour function -/

/-- The conversion `int(x)` of a `float64`: the fraction is discarded
(truncation toward zero). -/
noncomputable def toInt (x : ℝ) : Int :=
  if 0 ≤ x then ⌊x⌋ else ⌈x⌉

/-- The function `rgb` (main.go 39-70), in the real-number reading. -/
noncomputable def rgb (i : Int) (config : Config) : Int × Int × Int :=
  let f := config.frequency
  let s := config.speed
  let offset := (i : ℝ) * config.spread
  if config.mode = Rainbow then
    (toInt (Real.sin (f * (offset + s) + 0) * 127 + 128),
     toInt (Real.sin (f * (offset + s) + 2 * Real.pi / 3) * 127 + 128),
     toInt (Real.sin (f * (offset + s) + 4 * Real.pi / 3) * 127 + 128))
  else if config.mode = Fire then
    let r := toInt (Real.sin (f * (offset + s)) * 127 + 128)
    let g := toInt (Real.sin (f * (offset + s) + Real.pi / 2) * 64 + 64)
    let b := toInt (Real.sin (f * (offset + s) + Real.pi) * 32 + 32)
    (r, g, b)
  else if config.mode = Ocean then
    let r := toInt (Real.sin (f * (offset + s) + Real.pi) * 64 + 64)
    let g := toInt (Real.sin (f * (offset + s) + Real.pi / 2) * 127 + 128)
    let b := toInt (Real.sin (f * (offset + s)) * 127 + 128)
    (r, g, b)
  else if config.mode = Matrix then
    let g := toInt (Real.sin (f * (offset + s)) * 127 + 128)
    (0, g, toInt ((g : ℝ) * 0.3))
  else if config.mode = Pastel then
    let r := toInt (Real.sin (f * (offset + s) + 0) * 64 + 192)
    let g := toInt (Real.sin (f * (offset + s) + 2 * Real.pi / 3) * 64 + 192)
    let b := toInt (Real.sin (f * (offset + s) + 4 * Real.pi / 3) * 64 + 192)
    (r, g, b)
  else
    (255, 255, 255)

/-! ## The colour function in binary64

The same function with `float64` as IEEE 754 binary64: every sum and product
is rounded to nearest, ties to even, values can overflow to an infinity, and
NaN propagates. `math.Sin` is a parameter on the finite non-zero values. -/

/-- Round `n / 2 ^ k` to the nearest integer, a tie going to the even one. -/
def roundHalfEven (n k : Nat) : Nat :=
  let q := n / 2 ^ k
  let r := n % 2 ^ k
  if 2 * r > 2 ^ k ∨ (2 * r = 2 ^ k ∧ q % 2 = 1) then q + 1 else q

/-- The number of binary digits of `n`, for `n < 2 ^ fuel`. -/
def bitLength : Nat → Nat → Nat
  | 0, _ => 0
  | fuel + 1, n => if n = 0 then 0 else bitLength fuel (n / 2) + 1

/-- A binary64 value: not-a-number, an infinity with its sign, or the finite
value `m * 2 ^ e`. The operations below return finite values with `m` odd, or
`m = 0` and `e = 0`; the sign of zero is not represented. -/
inductive F64 where
  | nan
  | inf (neg : Bool)
  | fin (m : Int) (e : Int)
deriving DecidableEq

/-- The finite value `m * 2 ^ e` with the trailing zero bits of `m` moved into
the exponent. -/
def normalize64 : Nat → Int → Int → F64
  | 0, m, e => F64.fin m e
  | fuel + 1, m, e =>
    if m = 0 then F64.fin 0 0
    else if m % 2 = 0 then normalize64 fuel (m / 2) (e + 1)
    else F64.fin m e

/-- Rounding of the exact value `m * 2 ^ e` to binary64, to nearest, ties to
even: at most 53 significant bits, no bit below `2 ^ (-1074)`, and an infinity
when the rounded value reaches `2 ^ 1024`. -/
def round64 (m e : Int) : F64 :=
  let a := m.natAbs
  let drop : Int := max ((bitLength 4096 a : Int) - 53) (-1074 - e)
  let a1 : Nat := if drop ≤ 0 then a else roundHalfEven a drop.toNat
  let e1 : Int := if drop ≤ 0 then e else e + drop
  if (bitLength 4096 a1 : Int) + e1 > 1024 then F64.inf (decide (m < 0))
  else normalize64 4096 (if m < 0 then -(a1 : Int) else (a1 : Int)) e1

/-- The binary64 sum. -/
def F64.add : F64 → F64 → F64
  | F64.nan, _ => F64.nan
  | _, F64.nan => F64.nan
  | F64.inf a, F64.inf b => if a = b then F64.inf a else F64.nan
  | F64.inf a, F64.fin _ _ => F64.inf a
  | F64.fin _ _, F64.inf b => F64.inf b
  | F64.fin m1 e1, F64.fin m2 e2 =>
    if m2 = 0 then F64.fin m1 e1
    else if m1 = 0 then F64.fin m2 e2
    else
      round64 (m1 * 2 ^ (e1 - min e1 e2).toNat + m2 * 2 ^ (e2 - min e1 e2).toNat) (min e1 e2)

/-- The binary64 product. -/
def F64.mul : F64 → F64 → F64
  | F64.nan, _ => F64.nan
  | _, F64.nan => F64.nan
  | F64.inf a, F64.inf b => F64.inf (a != b)
  | F64.inf a, F64.fin m _ => if m = 0 then F64.nan else F64.inf (a != decide (m < 0))
  | F64.fin m _, F64.inf b => if m = 0 then F64.nan else F64.inf (decide (m < 0) != b)
  | F64.fin m1 e1, F64.fin m2 e2 => round64 (m1 * m2) (e1 + e2)

/-- The conversion `float64(i)`. -/
def F64.ofInt (i : Int) : F64 := round64 i 0

/-- The conversion `int(x)`: truncation toward zero; for NaN, an infinity or a
value outside int64 the result is the one of amd64, `-2 ^ 63`. -/
def F64.toInt : F64 → Int
  | F64.fin m e =>
    let v : Int :=
      if 0 ≤ e then m * 2 ^ e.toNat
      else if m < 0 then -((m.natAbs / 2 ^ (-e).toNat : Nat) : Int)
      else ((m.natAbs / 2 ^ (-e).toNat : Nat) : Int)
    if -2 ^ 63 ≤ v ∧ v < 2 ^ 63 then v else -2 ^ 63
  | _ => -2 ^ 63

/-- The library function `math.Sin` with its special cases: NaN for NaN and
for the infinities, zero for zero; on the other finite values it is the
parameter `sinFinite`. -/
def mathSin (sinFinite : Int → Int → F64) : F64 → F64
  | F64.nan => F64.nan
  | F64.inf _ => F64.nan
  | F64.fin m e => if m = 0 then F64.fin 0 0 else sinFinite m e


/-- The constant `math.Pi / 2` as a float64, 1.5707963267948966. -/
def piDiv2 : F64 := F64.fin 884279719003555 (-49)
/-- The constant `math.Pi` as a float64, 3.141592653589793. -/
def pi64 : F64 := F64.fin 884279719003555 (-48)
/-- The constant `2 * math.Pi / 3` as a float64, 2.0943951023931957. -/
def twoPiDiv3 : F64 := F64.fin 2358079250676147 (-50)
/-- The constant `4 * math.Pi / 3` as a float64, 4.188790204786391. -/
def fourPiDiv3 : F64 := F64.fin 2358079250676147 (-49)
/-- The constant `0.3` as a float64. -/
def threeTenths : F64 := F64.fin 5404319552844595 (-54)

/-- The record `Config` with its `float64` fields in binary64. -/
structure ConfigF64 where
  mode : ColorMode
  speed : F64
  spread : F64
  frequency : F64
  animate : Bool
  delay : Int
  force : Bool
  help : Bool

/-- The function `rgb` (main.go 39-70) in binary64 arithmetic. -/
def rgbF64 (sinFinite : Int → Int → F64) (i : Int) (config : ConfigF64) : Int × Int × Int :=
  let f := config.frequency
  let s := config.speed
  let offset := F64.mul (F64.ofInt i) config.spread
  let sin := mathSin sinFinite
  if config.mode = Rainbow then
    (F64.toInt (F64.add (F64.mul (sin (F64.add (F64.mul f (F64.add offset s)) (F64.ofInt 0)))
        (F64.ofInt 127)) (F64.ofInt 128)),
     F64.toInt (F64.add (F64.mul (sin (F64.add (F64.mul f (F64.add offset s)) twoPiDiv3))
        (F64.ofInt 127)) (F64.ofInt 128)),
     F64.toInt (F64.add (F64.mul (sin (F64.add (F64.mul f (F64.add offset s)) fourPiDiv3))
        (F64.ofInt 127)) (F64.ofInt 128)))
  else if config.mode = Fire then
    let r := F64.toInt (F64.add (F64.mul (sin (F64.mul f (F64.add offset s)))
      (F64.ofInt 127)) (F64.ofInt 128))
    let g := F64.toInt (F64.add (F64.mul (sin (F64.add (F64.mul f (F64.add offset s)) piDiv2))
      (F64.ofInt 64)) (F64.ofInt 64))
    let b := F64.toInt (F64.add (F64.mul (sin (F64.add (F64.mul f (F64.add offset s)) pi64))
      (F64.ofInt 32)) (F64.ofInt 32))
    (r, g, b)
  else if config.mode = Ocean then
    let r := F64.toInt (F64.add (F64.mul (sin (F64.add (F64.mul f (F64.add offset s)) pi64))
      (F64.ofInt 64)) (F64.ofInt 64))
    let g := F64.toInt (F64.add (F64.mul (sin (F64.add (F64.mul f (F64.add offset s)) piDiv2))
      (F64.ofInt 127)) (F64.ofInt 128))
    let b := F64.toInt (F64.add (F64.mul (sin (F64.mul f (F64.add offset s)))
      (F64.ofInt 127)) (F64.ofInt 128))
    (r, g, b)
  else if config.mode = Matrix then
    let g := F64.toInt (F64.add (F64.mul (sin (F64.mul f (F64.add offset s)))
      (F64.ofInt 127)) (F64.ofInt 128))
    (0, g, F64.toInt (F64.mul (F64.ofInt g) threeTenths))
  else if config.mode = Pastel then
    let r := F64.toInt (F64.add (F64.mul (sin (F64.add (F64.mul f (F64.add offset s)) (F64.ofInt 0)))
      (F64.ofInt 64)) (F64.ofInt 192))
    let g := F64.toInt (F64.add (F64.mul (sin (F64.add (F64.mul f (F64.add offset s)) twoPiDiv3))
      (F64.ofInt 64)) (F64.ofInt 192))
    let b := F64.toInt (F64.add (F64.mul (sin (F64.add (F64.mul f (F64.add offset s)) fourPiDiv3))
      (F64.ofInt 64)) (F64.ofInt 192))
    (r, g, b)
  else
    (255, 255, 255)

/-! ## Rendering -/

/-- The function `printColored` (main.go 73-75): one `Printf` of
`"\033[38;2;%d;%d;%dm%c\033[0m"`. -/
def printColored (r : Char) (red green blue : Int) : List Effect :=
  [Effect.stdout ("\x1b[38;2;" ++ toString red ++ ";" ++ toString green ++ ";"
    ++ toString blue ++ "m" ++ String.singleton r ++ "\x1b[0m")]

/-- The loop `for i, r := range runes` shared by `printLine` and by each frame
of `animateLine`: `i` is the position of the first rune of `runes`. -/
noncomputable def rangeRunes (runes : List Char) (config : Config) (lineOffset : Int)
    (i : Int) : List Effect :=
  match runes with
  | [] => []
  | r :: rest =>
    let c := rgb (i + lineOffset) config
    printColored r c.1 c.2.1 c.2.2 ++ rangeRunes rest config lineOffset (i + 1)

/-- The function `printLine` (main.go 78-85). -/
noncomputable def printLine (line : String) (config : Config) (lineOffset : Int) :
    List Effect :=
  let runes := line.toList
  rangeRunes runes config lineOffset 0 ++ [Effect.stdout "\n"]

/-- The loop `for frame := 0; frame < 20; frame++` of `animateLine`, entered
with the given value of `frame`. -/
noncomputable def animateFrames (runes : List Char) (config : Config) (lineOffset : Int)
    (frame : Nat) : List Effect :=
  if frame < 20 then
    let tempConfig := { config with speed := config.speed + (frame : ℝ) * 0.1 }
    [Effect.stdout "\r"]
      ++ rangeRunes runes tempConfig lineOffset 0
      ++ [Effect.sleep config.delay]
      ++ animateFrames runes config lineOffset (frame + 1)
  else
    []
termination_by 20 - frame

/-- The function `animateLine` (main.go 88-108). -/
noncomputable def animateLine (line : String) (config : Config) (lineOffset : Int) :
    List Effect :=
  if !config.animate then
    printLine line config lineOffset
  else
    let runes := line.toList
    animateFrames runes config lineOffset 0 ++ [Effect.stdout "\n"]

/-! ## Stream processing -/

/-- An input source as `bufio.Scanner` presents it: the lines returned by the
successive calls of `scanner.Text()`, then the value of `scanner.Err()`. -/
structure Reader where
  lines : List String
  err : Option String

/-- The loop `for scanner.Scan()` of `processInput`, entered with the given
value of `lineOffset`. -/
noncomputable def scanLoop (lines : List String) (config : Config) (lineOffset : Int) :
    List Effect :=
  match lines with
  | [] => []
  | line :: rest =>
    (if config.animate then animateLine line config lineOffset
     else printLine line config lineOffset)
      ++ scanLoop rest config (lineOffset + (line.toList.length : Int))

/-- The function `processInput` (main.go 111-126): the trace and the returned
error. -/
noncomputable def processInput (input : Reader) (config : Config) :
    List Effect × Option String :=
  (scanLoop input.lines config 0, input.err)

/-! ## Mode resolution and flags -/

/-- The ASCII branch of `strings.ToLower`: `A`..`Z` are moved to `a`..`z`. -/
def asciiLower (c : Char) : Char :=
  if 'A' ≤ c ∧ c ≤ 'Z' then Char.ofNat (c.toNat + 32) else c

/-- The library function `strings.ToLower`: a string of ASCII characters only
is lower-cased by `asciiLower`; any other string is mapped code point by code
point through `unicode.ToLower`, taken as the parameter `unicodeToLower`. -/
def ToLower (unicodeToLower : Char → Char) (s : String) : String :=
  if s.toList.all (fun c => c.toNat < 128) then String.mk (s.toList.map asciiLower)
  else String.mk (s.toList.map unicodeToLower)

/-- The function `parseColorMode` (main.go 129-144): the mode and the error. -/
def parseColorMode (unicodeToLower : Char → Char) (mode : String) :
    ColorMode × Option String :=
  let l := ToLower unicodeToLower mode
  if l = "rainbow" ∨ l = "r" then (Rainbow, none)
  else if l = "fire" ∨ l = "f" then (Fire, none)
  else if l = "ocean" ∨ l = "o" then (Ocean, none)
  else if l = "matrix" ∨ l = "m" then (Matrix, none)
  else if l = "pastel" ∨ l = "p" then (Pastel, none)
  else (Rainbow, some ("unknown color mode: " ++ mode))

/-- The values of the flag variables after `flag.Parse()`, and `flag.Args()`. -/
structure FlagValues where
  modeStr : String
  delayStr : String
  speed : ℝ
  spread : ℝ
  frequency : ℝ
  animate : Bool
  force : Bool
  help : Bool
  args : List String

/-- The function `parseFlags` (main.go 172-224) from `flag.Parse()` on; the
library function `time.ParseDuration` is the parameter `parseDuration`. -/
def parseFlags (unicodeToLower : Char → Char) (parseDuration : String → Option Int)
    (fv : FlagValues) : Except String (Config × List String) :=
  let config : Config :=
    { mode := Rainbow, speed := fv.speed, spread := fv.spread, frequency := fv.frequency,
      animate := fv.animate, delay := 100 * 1000000, force := fv.force, help := fv.help }
  if config.help then
    Except.ok (config, [])
  else
    match parseColorMode unicodeToLower fv.modeStr with
    | (_, some err) => Except.error err
    | (mode, none) =>
      match parseDuration fv.delayStr with
      | none => Except.error ("invalid delay format: " ++ fv.delayStr)
      | some delay => Except.ok ({ config with mode := mode, delay := delay }, fv.args)

/-- The function `printUsage` (main.go 147-169). -/
def printUsage : List Effect :=
  [ "gololcat - Colorize text with rainbow and other effects",
    "",
    "USAGE:",
    "    gololcat [OPTIONS] [FILE...]",
    "    command | gololcat [OPTIONS]",
    "",
    "OPTIONS:",
    "    -m, --mode MODE      Color mode: rainbow(r), fire(f), ocean(o), matrix(m), pastel(p) [default: rainbow]",
    "    -s, --speed FLOAT    Animation speed [default: 0.0]",
    "    -p, --spread FLOAT   Color spread factor [default: 1.0]",
    "    -f, --frequency FLOAT Frequency of color changes [default: 0.1]",
    "    -a, --animate        Enable animation effect",
    "    -d, --delay DURATION Animation delay [default: 100ms]",
    "    --force              Force color output even when not to a terminal",
    "    -h, --help           Show this help",
    "",
    "EXAMPLES:",
    "    echo \x27Hello World\x27 | gololcat",
    "    gololcat --mode fire --animate file.txt",
    "    fortune | gololcat -m ocean -s 2.0",
    "    ls -la | gololcat --mode matrix" ].map fun l => Effect.stdout (l ++ "\n")

/-! ## The driver -/

/-- What `main` reads from its surroundings. -/
structure Env where
  /-- the lower-case table of the `unicode` package -/
  unicodeToLower : Char → Char
  /-- the library function `time.ParseDuration` -/
  parseDuration : String → Option Int
  /-- the flag variables after `flag.Parse()` -/
  flagValues : FlagValues
  /-- whether standard output is a character device (`isTerminal()`) -/
  stdoutIsTerminal : Bool
  /-- whether standard input is a character device -/
  stdinIsTerminal : Bool
  /-- standard input -/
  stdin : Reader
  /-- the result of `os.Open` for each file name: an error text or the file -/
  osOpen : String → Except String Reader

/-- The loop `for _, filename := range files` of `main` (main.go 269-282). -/
noncomputable def fileLoop (osOpen : String → Except String Reader) (files : List String)
    (config : Config) : List Effect :=
  match files with
  | [] => []
  | filename :: rest =>
    match osOpen filename with
    | Except.error err =>
      [Effect.stderr ("Error opening " ++ filename ++ ": " ++ err ++ "\n")]
        ++ fileLoop osOpen rest config
    | Except.ok file =>
      let res := processInput file config
      res.1
        ++ (match res.2 with
            | some err => [Effect.stderr ("Error processing " ++ filename ++ ": " ++ err ++ "\n")]
            | none => [])
        ++ fileLoop osOpen rest config

/-- The function `main` (main.go 232-283): the trace and the exit code. -/
noncomputable def main (env : Env) : List Effect × Int :=
  match parseFlags env.unicodeToLower env.parseDuration env.flagValues with
  | Except.error err => ([Effect.stderr ("Error: " ++ err ++ "\n")], 1)
  | Except.ok (config, files) =>
    if config.help then
      (printUsage, 0)
    else if !config.force && !env.stdoutIsTerminal then
      ([Effect.stderr "Output is not a terminal. Use --force to override.\n"], 1)
    else if files.length = 0 then
      if env.stdinIsTerminal then
        ([Effect.stderr "Error: No input provided. Use pipes or specify files.\n",
          Effect.stderr "Usage: echo \x27text\x27 | gololcat or gololcat file.txt\n"], 1)
      else
        match processInput env.stdin config with
        | (out, some err) => (out ++ [Effect.stderr ("Error reading stdin: " ++ err ++ "\n")], 1)
        | (out, none) => (out, 0)
    else
      (fileLoop env.osOpen files config, 0)

/-! ## Specification vocabulary and fixtures -/

/-- A channel value that fits the 8 bits of a 24-bit colour component. -/
def isByte (v : Int) : Prop := 0 ≤ v ∧ v ≤ 255

instance (v : Int) : Decidable (isByte v) := by
  unfold isByte
  infer_instance

/-- The phase `f * (offset + s)` of `rgb` in binary64. -/
def phaseF64 (i : Int) (config : ConfigF64) : F64 :=
  F64.mul config.frequency (F64.add (F64.mul (F64.ofInt i) config.spread) config.speed)

/-- Matrix mode with frequency 1e308, spread 1e308 and speed 0
(`-m matrix -f 1e308 -p 1e308`). -/
def matrixOverflow : ConfigF64 :=
  { mode := Matrix, speed := F64.fin 0 0, spread := F64.fin 156575653125701 976,
    frequency := F64.fin 156575653125701 976, animate := false, delay := 100000000,
    force := false, help := false }

/-- Matrix mode with the default frequency 0.1, spread 1 and speed 0. -/
def matrixDefaultF64 : ConfigF64 :=
  { mode := Matrix, speed := F64.fin 0 0, spread := F64.fin 1 0,
    frequency := F64.fin 3602879701896397 (-55), animate := false, delay := 100000000,
    force := false, help := false }

/-- A stand-in for `math.Sin` away from zero: the single value
0.8660254037844386, the sine at 2π/3. -/
def sinStub : Int → Int → F64 := fun _ _ => F64.fin 3900231685776981 (-52)

/-- Rainbow mode with frequency `f`, spread 1 and speed `s`. -/
def rainbowF64 (f s : F64) : ConfigF64 :=
  { mode := Rainbow, speed := s, spread := F64.fin 1 0, frequency := f, animate := false,
    delay := 100000000, force := false, help := false }

/-- The Pastel configuration with frequency 1, spread 1 and speed π/2: at index
0 the phase is π/2, where the sine is 1. -/
noncomputable def pastelPeak : Config :=
  { mode := Pastel, speed := Real.pi / 2, spread := 1, frequency := 1, animate := false,
    delay := 100000000, force := false, help := false }

/-- The Matrix configuration of the fixture: speed 0, spread 1, frequency 0.1,
no animation. -/
noncomputable def matrixFixture : Config :=
  { mode := Matrix, speed := 0, spread := 1, frequency := 0.1, animate := false,
    delay := 100000000, force := false, help := false }

/-- The Rainbow configuration whose phase at index 0 is `p`: frequency 1,
spread 1, speed `p`. -/
def rainbowAt (p : ℝ) : Config :=
  { mode := Rainbow, speed := p, spread := 1, frequency := 1, animate := false,
    delay := 100000000, force := false, help := false }

/-- The code points of `runes` in order, the one at position `j` written by
`printColored` in the colour `rgb (j + offset) config`. -/
noncomputable def coloredRunes (runes : List Char) (config : Config) (offset : Int) :
    List Effect :=
  runes.enum.flatMap fun jc =>
    printColored jc.2 (rgb ((jc.1 : Int) + offset) config).1
      (rgb ((jc.1 : Int) + offset) config).2.1 (rgb ((jc.1 : Int) + offset) config).2.2

/-- One frame of the animation of `runes`: the carriage return, the code
points coloured with the speed raised by `frame * 0.1`, then the wait. -/
noncomputable def frameTrace (runes : List Char) (config : Config) (offset : Int)
    (frame : Nat) : List Effect :=
  [Effect.stdout "\r"]
    ++ coloredRunes runes { config with speed := config.speed + (frame : ℝ) * 0.1 } offset
    ++ [Effect.sleep config.delay]

/-- A configuration with animation on: Rainbow, the default speed, spread and
frequency, and a delay of 100ms. -/
noncomputable def animatedRainbow : Config :=
  { mode := Rainbow, speed := 0, spread := 1, frequency := 0.1, animate := true,
    delay := 100000000, force := false, help := false }

/-- The number of code points in the lines before line `N`. -/
def codePointsBefore (lines : List String) (N : Nat) : Int :=
  ((lines.take N).map fun l => (l.toList.length : Int)).sum

/-- What is emitted for one line when its first code point has index `total`:
in the plain path the coloured code points and a newline; in the animated path
the 20 frames and a newline. -/
noncomputable def lineTrace (config : Config) (total : Int) (line : String) : List Effect :=
  if config.animate then
    (List.range 20).flatMap (frameTrace line.toList config total) ++ [Effect.stdout "\n"]
  else
    coloredRunes line.toList config total ++ [Effect.stdout "\n"]

/-- The environment `env` with the file arguments replaced by `args`. -/
def withArgs (env : Env) (args : List String) : Env :=
  { env with flagValues := { env.flagValues with args := args } }

/-- The report of `main` for a file whose processing returned `err`. -/
def processingReport (filename : String) (err : Option String) : List Effect :=
  match err with
  | some err => [Effect.stderr ("Error processing " ++ filename ++ ": " ++ err ++ "\n")]
  | none => []

/-- A run in Matrix mode on a terminal with the arguments `missing.txt`, which
cannot be opened, and `ab.txt`, whose only line is "AB". -/
noncomputable def fixtureEnv : Env :=
  { unicodeToLower := id
    parseDuration := fun _ => some 100000000
    flagValues :=
      { modeStr := "matrix", delayStr := "100ms", speed := 0, spread := 1, frequency := 0.1,
        animate := false, force := false, help := false, args := ["missing.txt", "ab.txt"] }
    stdoutIsTerminal := true
    stdinIsTerminal := true
    stdin := { lines := [], err := none }
    osOpen := fun name =>
      if name = "ab.txt" then Except.ok { lines := ["AB"], err := none }
      else Except.error ("open " ++ name ++ ": no such file or directory") }

/-- Two files: `a.txt` with the single line "A" and `b.txt` with the single
line "B"; no other file can be opened. -/
def abFiles (name : String) : Except String Reader :=
  if name = "a.txt" then Except.ok { lines := ["A"], err := none }
  else if name = "b.txt" then Except.ok { lines := ["B"], err := none }
  else Except.error ("open " ++ name ++ ": no such file or directory")

/-! ## Truncation -/

theorem toInt_of_nonneg {x : ℝ} (h : 0 ≤ x) : toInt x = ⌊x⌋ := by
  simp [toInt, h]

theorem toInt_eq_of_mem {x : ℝ} {n : Int} (h0 : (n : ℝ) ≤ x) (h1 : x < n + 1)
    (hn : 0 ≤ n) : toInt x = n := by
  have hx : (0 : ℝ) ≤ x := le_trans (by exact_mod_cast hn) h0
  rw [toInt_of_nonneg hx, Int.floor_eq_iff]
  exact ⟨h0, h1⟩

theorem toInt_bounds {x : ℝ} {lo hi : Int} (hlo : (lo : ℝ) ≤ x) (hhi : x ≤ hi)
    (h0 : 0 ≤ lo) : lo ≤ toInt x ∧ toInt x ≤ hi := by
  have hx : (0 : ℝ) ≤ x := le_trans (by exact_mod_cast h0) hlo
  rw [toInt_of_nonneg hx]
  exact ⟨Int.le_floor.mpr hlo, Int.floor_le_iff.mpr (by linarith)⟩

/-- A sine wave of amplitude `a` around the centre `c`, truncated, stays
between `c - a` and `c + a`. -/
theorem toInt_sin_bounds (p : ℝ) (a c : Int) (ha : 0 ≤ a) (hac : a ≤ c) :
    c - a ≤ toInt (Real.sin p * a + c) ∧ toInt (Real.sin p * a + c) ≤ c + a := by
  have h1 := Real.neg_one_le_sin p
  have h2 := Real.sin_le_one p
  have ha' : (0 : ℝ) ≤ a := by exact_mod_cast ha
  apply toInt_bounds
  · push_cast; nlinarith
  · push_cast; nlinarith
  · omega

/-! ## The colour function: one equation per mode -/

theorem rgb_rainbow (i : Int) (c : Config) (h : c.mode = Rainbow) :
    rgb i c =
      (toInt (Real.sin (c.frequency * ((i : ℝ) * c.spread + c.speed) + 0) * 127 + 128),
       toInt (Real.sin (c.frequency * ((i : ℝ) * c.spread + c.speed) + 2 * Real.pi / 3) * 127
         + 128),
       toInt (Real.sin (c.frequency * ((i : ℝ) * c.spread + c.speed) + 4 * Real.pi / 3) * 127
         + 128)) := by
  simp only [rgb, h, if_true]

theorem rgb_fire (i : Int) (c : Config) (h : c.mode = Fire) :
    rgb i c =
      (toInt (Real.sin (c.frequency * ((i : ℝ) * c.spread + c.speed)) * 127 + 128),
       toInt (Real.sin (c.frequency * ((i : ℝ) * c.spread + c.speed) + Real.pi / 2) * 64 + 64),
       toInt (Real.sin (c.frequency * ((i : ℝ) * c.spread + c.speed) + Real.pi) * 32 + 32)) := by
  have e : ((1 : Int) = 0) = False := by decide
  simp only [rgb, h, e, if_true, if_false]

theorem rgb_ocean (i : Int) (c : Config) (h : c.mode = Ocean) :
    rgb i c =
      (toInt (Real.sin (c.frequency * ((i : ℝ) * c.spread + c.speed) + Real.pi) * 64 + 64),
       toInt (Real.sin (c.frequency * ((i : ℝ) * c.spread + c.speed) + Real.pi / 2) * 127 + 128),
       toInt (Real.sin (c.frequency * ((i : ℝ) * c.spread + c.speed)) * 127 + 128)) := by
  have e : ((2 : Int) = 0) = False := by decide
  have e1 : ((2 : Int) = 1) = False := by decide
  simp only [rgb, h, e, e1, if_true, if_false]

theorem rgb_matrix (i : Int) (c : Config) (h : c.mode = Matrix) :
    rgb i c =
      (0, toInt (Real.sin (c.frequency * ((i : ℝ) * c.spread + c.speed)) * 127 + 128),
       toInt ((toInt (Real.sin (c.frequency * ((i : ℝ) * c.spread + c.speed)) * 127 + 128) : ℝ)
         * 0.3)) := by
  have e : ((3 : Int) = 0) = False := by decide
  have e1 : ((3 : Int) = 1) = False := by decide
  have e2 : ((3 : Int) = 2) = False := by decide
  simp only [rgb, h, e, e1, e2, if_true, if_false]

theorem rgb_pastel (i : Int) (c : Config) (h : c.mode = Pastel) :
    rgb i c =
      (toInt (Real.sin (c.frequency * ((i : ℝ) * c.spread + c.speed) + 0) * 64 + 192),
       toInt (Real.sin (c.frequency * ((i : ℝ) * c.spread + c.speed) + 2 * Real.pi / 3) * 64
         + 192),
       toInt (Real.sin (c.frequency * ((i : ℝ) * c.spread + c.speed) + 4 * Real.pi / 3) * 64
         + 192)) := by
  have e : ((4 : Int) = 0) = False := by decide
  have e1 : ((4 : Int) = 1) = False := by decide
  have e2 : ((4 : Int) = 2) = False := by decide
  have e3 : ((4 : Int) = 3) = False := by decide
  simp only [rgb, h, e, e1, e2, e3, if_true, if_false]

/-! ## The colour function: range -/

/-- The green channel of Matrix mode is at least 1 and at most 255. -/
theorem matrix_green_bounds (p : ℝ) :
    1 ≤ toInt (Real.sin p * 127 + 128) ∧ toInt (Real.sin p * 127 + 128) ≤ 255 := by
  have a := toInt_sin_bounds p 127 128 (by norm_num) (by norm_num)
  push_cast at a
  omega

/-- In the modes Rainbow, Fire, Ocean and Matrix every channel is in [0,255],
for every index and every real speed, spread and frequency. -/
theorem rgb_isByte_of_not_pastel (i : Int) (c : Config)
    (h : c.mode = Rainbow ∨ c.mode = Fire ∨ c.mode = Ocean ∨ c.mode = Matrix) :
    isByte (rgb i c).1 ∧ isByte (rgb i c).2.1 ∧ isByte (rgb i c).2.2 := by
  unfold isByte
  rcases h with h | h | h | h
  · have a := toInt_sin_bounds (c.frequency * ((i : ℝ) * c.spread + c.speed) + 0) 127 128
      (by norm_num) (by norm_num)
    have b := toInt_sin_bounds (c.frequency * ((i : ℝ) * c.spread + c.speed) + 2 * Real.pi / 3)
      127 128 (by norm_num) (by norm_num)
    have d := toInt_sin_bounds (c.frequency * ((i : ℝ) * c.spread + c.speed) + 4 * Real.pi / 3)
      127 128 (by norm_num) (by norm_num)
    push_cast at a b d
    rw [rgb_rainbow i c h]
    dsimp only
    omega
  · have a := toInt_sin_bounds (c.frequency * ((i : ℝ) * c.spread + c.speed)) 127 128
      (by norm_num) (by norm_num)
    have b := toInt_sin_bounds (c.frequency * ((i : ℝ) * c.spread + c.speed) + Real.pi / 2)
      64 64 (by norm_num) (by norm_num)
    have d := toInt_sin_bounds (c.frequency * ((i : ℝ) * c.spread + c.speed) + Real.pi)
      32 32 (by norm_num) (by norm_num)
    push_cast at a b d
    rw [rgb_fire i c h]
    dsimp only
    omega
  · have a := toInt_sin_bounds (c.frequency * ((i : ℝ) * c.spread + c.speed)) 127 128
      (by norm_num) (by norm_num)
    have b := toInt_sin_bounds (c.frequency * ((i : ℝ) * c.spread + c.speed) + Real.pi / 2)
      127 128 (by norm_num) (by norm_num)
    have d := toInt_sin_bounds (c.frequency * ((i : ℝ) * c.spread + c.speed) + Real.pi)
      64 64 (by norm_num) (by norm_num)
    push_cast at a b d
    rw [rgb_ocean i c h]
    dsimp only
    omega
  · have a := matrix_green_bounds (c.frequency * ((i : ℝ) * c.spread + c.speed))
    have b : (0 : Int) ≤ toInt ((toInt (Real.sin (c.frequency * ((i : ℝ) * c.spread + c.speed))
        * 127 + 128) : ℝ) * 0.3) ∧
        toInt ((toInt (Real.sin (c.frequency * ((i : ℝ) * c.spread + c.speed))
        * 127 + 128) : ℝ) * 0.3) ≤ 255 := by
      have a1 : (1 : ℝ) ≤ (toInt (Real.sin (c.frequency * ((i : ℝ) * c.spread + c.speed))
        * 127 + 128) : ℝ) := by exact_mod_cast a.1
      have a2 : (toInt (Real.sin (c.frequency * ((i : ℝ) * c.spread + c.speed))
        * 127 + 128) : ℝ) ≤ 255 := by exact_mod_cast a.2
      apply toInt_bounds
      · push_cast; linarith
      · push_cast; linarith
      · norm_num
    rw [rgb_matrix i c h]
    dsimp only
    omega

/-- In Pastel mode every channel is between 128 and 256. -/
theorem rgb_pastel_bounds (i : Int) (c : Config) (h : c.mode = Pastel) :
    (128 ≤ (rgb i c).1 ∧ (rgb i c).1 ≤ 256) ∧ (128 ≤ (rgb i c).2.1 ∧ (rgb i c).2.1 ≤ 256)
      ∧ (128 ≤ (rgb i c).2.2 ∧ (rgb i c).2.2 ≤ 256) := by
  have a := toInt_sin_bounds (c.frequency * ((i : ℝ) * c.spread + c.speed) + 0) 64 192
    (by norm_num) (by norm_num)
  have b := toInt_sin_bounds (c.frequency * ((i : ℝ) * c.spread + c.speed) + 2 * Real.pi / 3)
    64 192 (by norm_num) (by norm_num)
  have d := toInt_sin_bounds (c.frequency * ((i : ℝ) * c.spread + c.speed) + 4 * Real.pi / 3)
    64 192 (by norm_num) (by norm_num)
  push_cast at a b d
  rw [rgb_pastel i c h]
  dsimp only
  omega

/-- C1 (the code at the failing input): in Pastel mode with frequency 1, spread
1 and speed π/2 the red channel of index 0 is 64 * 1 + 192 = 256, which is not
in [0,255]. -/
theorem rgb_pastel_red_is_256 :
    (rgb 0 pastelPeak).1 = 256 ∧ ¬ isByte (rgb 0 pastelPeak).1 := by
  have h : (rgb 0 pastelPeak).1 = 256 := by
    rw [rgb_pastel 0 pastelPeak rfl]
    simp only [pastelPeak]
    have e : (1 : ℝ) * (((0 : Int) : ℝ) * 1 + Real.pi / 2) + 0 = Real.pi / 2 := by
      push_cast; ring
    rw [e, Real.sin_pi_div_two]
    exact toInt_eq_of_mem (by norm_num) (by norm_num) (by norm_num)
  refine ⟨h, ?_⟩
  rw [h]
  unfold isByte
  omega

/-! ## Matrix mode in binary64 -/

set_option maxRecDepth 100000 in
theorem rgbF64_matrixOverflow (sinFinite : Int → Int → F64) :
    rgbF64 sinFinite 1 matrixOverflow = (0, -9223372036854775808, -2767011611056432640) := by
  have h : F64.mul matrixOverflow.frequency
      (F64.add (F64.mul (F64.ofInt 1) matrixOverflow.spread) matrixOverflow.speed)
      = F64.inf false := by decide
  have e : ((3 : Int) = 0) = False := by decide
  have e1 : ((3 : Int) = 1) = False := by decide
  have e2 : ((3 : Int) = 2) = False := by decide
  have hm : matrixOverflow.mode = 3 := rfl
  simp only [rgbF64, hm, e, e1, e2, if_true, if_false, h, mathSin]
  decide


theorem F64.add_zero (x : F64) : F64.add x (F64.ofInt 0) = x := by
  have h : F64.ofInt 0 = F64.fin 0 0 := by decide
  rw [h]
  cases x <;> simp [F64.add]

set_option maxRecDepth 100000 in
theorem toInt_mul_threeTenths :
    ∀ g : Nat, g < 256 →
      F64.toInt (F64.mul (F64.ofInt (g : Int)) threeTenths) = ((3 * g / 10 : Nat) : Int) := by
  decide

theorem floor_three_tenths (g : Nat) : ⌊((g : Int) : ℚ) * (3 / 10)⌋ = ((3 * g / 10 : Nat) : Int) := by
  rw [Int.floor_eq_iff]
  have hd := Nat.div_add_mod (3 * g) 10
  have hm := Nat.mod_lt (3 * g) (show 10 > 0 by norm_num)
  have hd' : 10 * ((3 * g / 10 : Nat) : ℚ) + ((3 * g % 10 : Nat) : ℚ) = 3 * (g : ℚ) := by
    exact_mod_cast hd
  have hm' : ((3 * g % 10 : Nat) : ℚ) < 10 := by exact_mod_cast hm
  have hm0 : (0 : ℚ) ≤ ((3 * g % 10 : Nat) : ℚ) := Nat.cast_nonneg _
  simp only [Int.cast_natCast]
  generalize ((3 * g / 10 : Nat) : ℚ) = q at hd'
  generalize ((3 * g % 10 : Nat) : ℚ) = r at hd' hm' hm0
  constructor
  · linarith
  · linarith

theorem rgbF64_matrix (sinFinite : Int → Int → F64) (i : Int) (config : ConfigF64)
    (h : config.mode = Matrix) :
    rgbF64 sinFinite i config =
      (0, F64.toInt (F64.add (F64.mul (mathSin sinFinite (phaseF64 i config)) (F64.ofInt 127))
            (F64.ofInt 128)),
       F64.toInt (F64.mul (F64.ofInt (F64.toInt (F64.add (F64.mul
          (mathSin sinFinite (phaseF64 i config)) (F64.ofInt 127)) (F64.ofInt 128))))
          threeTenths)) := by
  have e : ((3 : Int) = 0) = False := by decide
  have e1 : ((3 : Int) = 1) = False := by decide
  have e2 : ((3 : Int) = 2) = False := by decide
  simp only [rgbF64, phaseF64, h, e, e1, e2, if_true, if_false]

theorem rgbF64_rainbow (sinFinite : Int → Int → F64) (i : Int) (config : ConfigF64)
    (h : config.mode = Rainbow) :
    rgbF64 sinFinite i config =
      (F64.toInt (F64.add (F64.mul (mathSin sinFinite (F64.add (phaseF64 i config) (F64.ofInt 0)))
          (F64.ofInt 127)) (F64.ofInt 128)),
       F64.toInt (F64.add (F64.mul (mathSin sinFinite (F64.add (phaseF64 i config) twoPiDiv3))
          (F64.ofInt 127)) (F64.ofInt 128)),
       F64.toInt (F64.add (F64.mul (mathSin sinFinite (F64.add (phaseF64 i config) fourPiDiv3))
          (F64.ofInt 127)) (F64.ofInt 128))) := by
  simp only [rgbF64, phaseF64, h, if_true]

/-- C2 (counterexample): with frequency 1e308 and spread 1e308 the phase of
index 1 overflows to +Inf, `math.Sin` returns NaN, green is `int(NaN)` and blue
is -2767011611056432640, while the floor of 0.3 times green is
-2767011611056432743. -/
theorem matrix_blue_ne_floor :
    (∀ sinFinite : Int → Int → F64,
        rgbF64 sinFinite 1 matrixOverflow = (0, -9223372036854775808, -2767011611056432640))
      ∧ ⌊((-9223372036854775808 : Int) : ℚ) * (3 / 10)⌋ = -2767011611056432743
      ∧ ¬ (∀ (sinFinite : Int → Int → F64) (i : Int) (config : ConfigF64),
            config.mode = Matrix →
              (rgbF64 sinFinite i config).1 = 0
                ∧ (rgbF64 sinFinite i config).2.2
                    = ⌊(((rgbF64 sinFinite i config).2.1 : Int) : ℚ) * (3 / 10)⌋) := by
  have hf : ⌊((-9223372036854775808 : Int) : ℚ) * (3 / 10)⌋ = -2767011611056432743 := by
    rw [Int.floor_eq_iff]
    constructor <;> norm_num
  refine ⟨rgbF64_matrixOverflow, hf, ?_⟩
  intro hall
  have h := (hall sinStub 1 matrixOverflow rfl).2
  rw [rgbF64_matrixOverflow] at h
  simp only [hf] at h
  exact absurd h (by decide)

/-- C2 (amended): in Matrix mode, for every index and every configuration, the
red channel is 0 and the blue channel is `int(float64(green) * 0.3)`, the
binary64 product truncated toward zero; whenever the green channel of the same
call is in [0,255] this is the floor of 0.3 times green. -/
theorem rgbF64_matrix_red_blue (sinFinite : Int → Int → F64) (i : Int) (config : ConfigF64)
    (h : config.mode = Matrix) :
    (rgbF64 sinFinite i config).1 = 0
      ∧ (rgbF64 sinFinite i config).2.2
          = F64.toInt (F64.mul (F64.ofInt (rgbF64 sinFinite i config).2.1) threeTenths)
      ∧ (0 ≤ (rgbF64 sinFinite i config).2.1 ∧ (rgbF64 sinFinite i config).2.1 ≤ 255 →
          (rgbF64 sinFinite i config).2.2
            = ⌊(((rgbF64 sinFinite i config).2.1 : Int) : ℚ) * (3 / 10)⌋) := by
  rw [rgbF64_matrix sinFinite i config h]
  refine ⟨rfl, rfl, ?_⟩
  dsimp only
  generalize F64.toInt (F64.add (F64.mul (mathSin sinFinite (phaseF64 i config)) (F64.ofInt 127))
    (F64.ofInt 128)) = g
  rintro ⟨h0, h1⟩
  obtain ⟨n, rfl⟩ := Int.eq_ofNat_of_zero_le h0
  have hn : n < 256 := by omega
  rw [toInt_mul_threeTenths n hn, floor_three_tenths]

set_option maxRecDepth 100000 in
theorem rgbF64_matrixDefault_zero (sinFinite : Int → Int → F64) :
    rgbF64 sinFinite 0 matrixDefaultF64 = (0, 128, 38) := by
  rw [rgbF64_matrix sinFinite 0 matrixDefaultF64 rfl]
  have h : phaseF64 0 matrixDefaultF64 = F64.fin 0 0 := by decide
  simp only [h, mathSin, if_true]
  decide

/-- C2 (witness): index 0 of the default Matrix configuration, where the phase
is 0 and `math.Sin` returns 0: green is 128 and blue is 38. -/
theorem rgbF64_matrix_red_blue_witness :
    rgbF64 sinStub 0 matrixDefaultF64 = (0, 128, 38)
      ∧ (38 : Int) = ⌊((128 : Int) : ℚ) * (3 / 10)⌋ := by
  have h := rgbF64_matrix_red_blue sinStub 0 matrixDefaultF64 rfl
  rw [rgbF64_matrixDefault_zero] at h
  exact ⟨rgbF64_matrixDefault_zero _, h.2.2 (by decide)⟩

/-! ## Rainbow mode -/

theorem rgb_rainbowAt (p : ℝ) :
    rgb 0 (rainbowAt p) =
      (toInt (Real.sin p * 127 + 128), toInt (Real.sin (p + 2 * Real.pi / 3) * 127 + 128),
       toInt (Real.sin (p + 4 * Real.pi / 3) * 127 + 128)) := by
  rw [rgb_rainbow 0 (rainbowAt p) rfl]
  simp [rainbowAt]

theorem sin_four_pi_div_three : Real.sin (4 * Real.pi / 3) = -(√3 / 2) := by
  have e : 4 * Real.pi / 3 = Real.pi / 3 + Real.pi := by ring
  rw [e, Real.sin_add_pi, Real.sin_pi_div_three]

theorem sqrt_three_bounds : (218 : ℝ) < 127 * √3 ∧ 127 * √3 ≤ 220 := by
  have h3 : (0 : ℝ) ≤ 3 := by norm_num
  have hs : √3 * √3 = 3 := Real.mul_self_sqrt h3
  have hp : (0 : ℝ) ≤ √3 := Real.sqrt_nonneg 3
  constructor <;> nlinarith

/-- C3 (counterexample): at phase 0 the red value is 128, while the green value
at phase 0 + 2π/3 is 18. -/
theorem rainbow_red_ne_green_shifted :
    (rgb 0 (rainbowAt 0)).1 = 128
      ∧ (rgb 0 (rainbowAt (0 + 2 * Real.pi / 3))).2.1 = 18
      ∧ (rgb 0 (rainbowAt 0)).1 ≠ (rgb 0 (rainbowAt (0 + 2 * Real.pi / 3))).2.1 := by
  have hr : (rgb 0 (rainbowAt 0)).1 = 128 := by
    rw [rgb_rainbowAt]
    simp only [Real.sin_zero]
    exact toInt_eq_of_mem (by norm_num) (by norm_num) (by norm_num)
  have hg : (rgb 0 (rainbowAt (0 + 2 * Real.pi / 3))).2.1 = 18 := by
    rw [rgb_rainbowAt]
    have e : (0 : ℝ) + 2 * Real.pi / 3 + 2 * Real.pi / 3 = 4 * Real.pi / 3 := by ring
    simp only [e, sin_four_pi_div_three]
    have b := sqrt_three_bounds
    apply toInt_eq_of_mem
    · push_cast; linarith [b.2]
    · push_cast; linarith [b.1]
    · norm_num
  refine ⟨hr, hg, ?_⟩
  rw [hr, hg]
  decide

/-! ## Rainbow mode in binary64 -/

set_option maxRecDepth 100000 in
theorem phaseF64_absorbs :
    phaseF64 1 (rainbowF64 (F64.fin 762939453125 17) (F64.fin 0 0)) = F64.fin 762939453125 17
      ∧ F64.add (F64.fin 762939453125 17) (F64.ofInt 0) = F64.fin 762939453125 17
      ∧ F64.add (F64.fin 762939453125 17) twoPiDiv3 = F64.fin 762939453125 17
      ∧ F64.add (F64.fin 762939453125 17) fourPiDiv3 = F64.fin 762939453125 17 := by
  decide

/-- C3 (amended): in Rainbow mode, with phase = frequency * (i * spread +
speed) computed in binary64, the red, green and blue channels are the
truncation of sin(phase + shift) * 127 + 128, where the shifts are 0 and the
float64 constants 2.0943951023931957 and 4.188790204786391 (the doubles
nearest 2π/3 and 4π/3) and the sum phase + shift is rounded; whenever a second
Rainbow call has as phase the binary64 sum of the phase of the first and
2.0943951023931957, its red value is the green value of the first. Because the
sum is rounded, at frequency 1e17 (index 1, spread 1, speed 0) the shifts are
absorbed and the three channels are equal. -/
theorem rgbF64_rainbow_shift (sinFinite : Int → Int → F64) (i j : Int) (c d : ConfigF64)
    (hc : c.mode = Rainbow) (hd : d.mode = Rainbow)
    (hp : phaseF64 j d = F64.add (phaseF64 i c) twoPiDiv3) :
    rgbF64 sinFinite i c =
        (F64.toInt (F64.add (F64.mul (mathSin sinFinite (F64.add (phaseF64 i c) (F64.ofInt 0)))
            (F64.ofInt 127)) (F64.ofInt 128)),
         F64.toInt (F64.add (F64.mul (mathSin sinFinite (F64.add (phaseF64 i c) twoPiDiv3))
            (F64.ofInt 127)) (F64.ofInt 128)),
         F64.toInt (F64.add (F64.mul (mathSin sinFinite (F64.add (phaseF64 i c) fourPiDiv3))
            (F64.ofInt 127)) (F64.ofInt 128)))
      ∧ (rgbF64 sinFinite j d).1 = (rgbF64 sinFinite i c).2.1
      ∧ (rgbF64 sinFinite 1 (rainbowF64 (F64.fin 762939453125 17) (F64.fin 0 0))).1
          = (rgbF64 sinFinite 1 (rainbowF64 (F64.fin 762939453125 17) (F64.fin 0 0))).2.1
      ∧ (rgbF64 sinFinite 1 (rainbowF64 (F64.fin 762939453125 17) (F64.fin 0 0))).2.1
          = (rgbF64 sinFinite 1 (rainbowF64 (F64.fin 762939453125 17) (F64.fin 0 0))).2.2 := by
  refine ⟨rgbF64_rainbow sinFinite i c hc, ?_, ?_, ?_⟩
  · rw [rgbF64_rainbow sinFinite i c hc, rgbF64_rainbow sinFinite j d hd, hp, F64.add_zero]
  · rw [rgbF64_rainbow sinFinite 1 _ rfl]
    simp only [phaseF64_absorbs.1, phaseF64_absorbs.2.1, phaseF64_absorbs.2.2.1]
  · rw [rgbF64_rainbow sinFinite 1 _ rfl]
    simp only [phaseF64_absorbs.1, phaseF64_absorbs.2.2.1, phaseF64_absorbs.2.2.2]

set_option maxRecDepth 100000 in
theorem phaseF64_rainbow_shifted :
    phaseF64 0 (rainbowF64 (F64.fin 1 0) twoPiDiv3)
      = F64.add (phaseF64 0 (rainbowF64 (F64.fin 1 0) (F64.fin 0 0))) twoPiDiv3 := by
  decide

set_option maxRecDepth 100000 in
theorem rgbF64_rainbow_shifted_red :
    (rgbF64 sinStub 0 (rainbowF64 (F64.fin 1 0) twoPiDiv3)).1 = 237 := by
  decide

/-- C3 (witness): the call with frequency 1 and speed 0 has phase 0, the call
with frequency 1 and speed 2.0943951023931957 has the phase 0 + 2.0943951023931957;
the red value of the second, 237, is the green value of the first. -/
theorem rgbF64_rainbow_shift_witness :
    (rgbF64 sinStub 0 (rainbowF64 (F64.fin 1 0) (F64.fin 0 0))).2.1 = 237 := by
  have h := (rgbF64_rainbow_shift sinStub 0 0 (rainbowF64 (F64.fin 1 0) (F64.fin 0 0))
    (rainbowF64 (F64.fin 1 0) twoPiDiv3) rfl rfl phaseF64_rainbow_shifted).2.1
  rw [← h]
  exact rgbF64_rainbow_shifted_red

/-! ## Values of the Matrix fixture -/

theorem sin_one_tenth_bounds :
    (12 : ℝ) ≤ Real.sin 0.1 * 127 ∧ Real.sin 0.1 * 127 < 13 := by
  have h1 : Real.sin 0.1 < 0.1 := Real.sin_lt (by norm_num)
  have h2 : (0.1 : ℝ) - 0.1 ^ 3 / 4 < Real.sin 0.1 :=
    Real.sin_gt_sub_cube (by norm_num) (by norm_num)
  constructor
  · norm_num at h2 ⊢; linarith
  · norm_num at h1 ⊢; linarith

theorem rgb_matrixFixture (i : Int) :
    rgb i matrixFixture =
      (0, toInt (127 * Real.sin (0.1 * (i : ℝ)) + 128),
       toInt (0.3 * (toInt (127 * Real.sin (0.1 * (i : ℝ)) + 128) : ℝ))) := by
  rw [rgb_matrix i matrixFixture rfl]
  simp only [matrixFixture, mul_one, add_zero, mul_comm]

theorem rgb_matrixFixture_zero : rgb 0 matrixFixture = (0, 128, 38) := by
  rw [rgb_matrixFixture]
  have e : toInt (127 * Real.sin (0.1 * ((0 : Int) : ℝ)) + 128) = 128 := by
    simp only [Int.cast_zero, mul_zero, Real.sin_zero, zero_add]
    exact toInt_eq_of_mem (by norm_num) (by norm_num) (by norm_num)
  rw [e]
  have e2 : toInt (0.3 * ((128 : Int) : ℝ)) = 38 :=
    toInt_eq_of_mem (by norm_num) (by norm_num) (by norm_num)
  rw [e2]

theorem rgb_matrixFixture_one : rgb 1 matrixFixture = (0, 140, 42) := by
  rw [rgb_matrixFixture]
  have b := sin_one_tenth_bounds
  have e : toInt (127 * Real.sin (0.1 * ((1 : Int) : ℝ)) + 128) = 140 := by
    simp only [Int.cast_one, mul_one]
    apply toInt_eq_of_mem
    · push_cast; linarith [b.1]
    · push_cast; linarith [b.2]
    · norm_num
  rw [e]
  have e2 : toInt (0.3 * ((140 : Int) : ℝ)) = 42 :=
    toInt_eq_of_mem (by norm_num) (by norm_num) (by norm_num)
  rw [e2]

/-! ## Rendering a line -/

theorem rangeRunes_enumFrom (runes : List Char) (config : Config) (lineOffset : Int) (n : Nat) :
    rangeRunes runes config lineOffset (n : Int) =
      (runes.enumFrom n).flatMap fun jc =>
        printColored jc.2 (rgb ((jc.1 : Int) + lineOffset) config).1
          (rgb ((jc.1 : Int) + lineOffset) config).2.1
          (rgb ((jc.1 : Int) + lineOffset) config).2.2 := by
  induction runes generalizing n with
  | nil => simp [rangeRunes]
  | cons r rest ih =>
    have h := ih (n + 1)
    push_cast at h
    simp only [rangeRunes, List.enumFrom_cons, List.flatMap_cons, h]

theorem rangeRunes_zero (runes : List Char) (config : Config) (lineOffset : Int) :
    rangeRunes runes config lineOffset 0 = coloredRunes runes config lineOffset := by
  have h := rangeRunes_enumFrom runes config lineOffset 0
  simpa [coloredRunes, List.enum] using h

theorem printLine_eq (line : String) (config : Config) (lineOffset : Int) :
    printLine line config lineOffset
      = coloredRunes line.toList config lineOffset ++ [Effect.stdout "\n"] := by
  simp only [printLine, rangeRunes_zero]

theorem stdoutText_append (a b : List Effect) :
    stdoutText (a ++ b) = stdoutText a ++ stdoutText b := by
  induction a with
  | nil => simp [stdoutText]
  | cons e rest ih =>
    cases e <;> simp [stdoutText, ih, String.append_assoc]

theorem stdoutText_map_stdout {α : Type} (f : α → String) (l : List α) (tail : String) :
    stdoutText (l.map fun x => Effect.stdout (f x)) ++ tail
      = (l.map f).foldr (fun a b => a ++ b) tail := by
  induction l with
  | nil => simp [stdoutText]
  | cons x rest ih =>
    simp only [List.map_cons, stdoutText, List.foldr_cons, String.append_assoc, ih]

/-- C7: for every line, configuration and offset, `printLine` writes, for each
code point `c` at position `j` of the line in order, the text
`ESC[38;2;R;G;Bm c ESC[0m` with (R,G,B) = rgb(j + offset, config) in decimal,
and then one newline; the text on standard output is the concatenation of
these; an empty line gives the newline alone. -/
theorem printLine_output (line : String) (config : Config) (offset : Int) :
    printLine line config offset
        = (line.toList.enum.map fun jc => Effect.stdout
            ("\x1b[38;2;" ++ toString (rgb ((jc.1 : Int) + offset) config).1 ++ ";"
              ++ toString (rgb ((jc.1 : Int) + offset) config).2.1 ++ ";"
              ++ toString (rgb ((jc.1 : Int) + offset) config).2.2 ++ "m"
              ++ String.singleton jc.2 ++ "\x1b[0m"))
          ++ [Effect.stdout "\n"]
      ∧ stdoutText (printLine line config offset)
        = (line.toList.enum.map fun jc =>
            "\x1b[38;2;" ++ toString (rgb ((jc.1 : Int) + offset) config).1 ++ ";"
              ++ toString (rgb ((jc.1 : Int) + offset) config).2.1 ++ ";"
              ++ toString (rgb ((jc.1 : Int) + offset) config).2.2 ++ "m"
              ++ String.singleton jc.2 ++ "\x1b[0m").foldr (fun a b => a ++ b) "\n"
      ∧ printLine "" config offset = [Effect.stdout "\n"] := by
  have h : printLine line config offset
        = (line.toList.enum.map fun jc => Effect.stdout
            ("\x1b[38;2;" ++ toString (rgb ((jc.1 : Int) + offset) config).1 ++ ";"
              ++ toString (rgb ((jc.1 : Int) + offset) config).2.1 ++ ";"
              ++ toString (rgb ((jc.1 : Int) + offset) config).2.2 ++ "m"
              ++ String.singleton jc.2 ++ "\x1b[0m"))
          ++ [Effect.stdout "\n"] := by
    rw [printLine_eq, coloredRunes]
    congr 1
    generalize line.toList.enum = l
    induction l with
    | nil => rfl
    | cons x rest ih =>
      rw [List.flatMap_cons, List.map_cons, ih]
      rfl
  refine ⟨h, ?_, ?_⟩
  · rw [h, stdoutText_append, stdoutText_map_stdout]
    simp [stdoutText]
  · rw [printLine_eq]
    rfl

/-! ## Animation -/

theorem animateFrames_range (runes : List Char) (config : Config) (lineOffset : Int)
    (n k : Nat) (h : k + n = 20) :
    animateFrames runes config lineOffset k
      = (List.range' k n).flatMap (frameTrace runes config lineOffset) := by
  induction n generalizing k with
  | zero =>
    have hk : ¬ k < 20 := by omega
    rw [animateFrames, if_neg hk]
    rfl
  | succ n ih =>
    have hk : k < 20 := by omega
    rw [animateFrames, if_pos hk, ih (k + 1) (by omega), List.range'_succ, List.flatMap_cons]
    simp only [rangeRunes_zero, frameTrace]

theorem animateLine_eq (line : String) (config : Config) (lineOffset : Int)
    (h : config.animate = true) :
    animateLine line config lineOffset
      = (List.range 20).flatMap (frameTrace line.toList config lineOffset)
        ++ [Effect.stdout "\n"] := by
  simp only [animateLine, h, Bool.not_true, Bool.false_eq_true, if_false]
  rw [animateFrames_range line.toList config lineOffset 20 0 (by norm_num),
    List.range_eq_range']

theorem sleeps_append (a b : List Effect) : sleeps (a ++ b) = sleeps a ++ sleeps b := by
  induction a with
  | nil => simp [sleeps]
  | cons e rest ih => cases e <;> simp [sleeps, ih]

theorem sleeps_coloredRunes (runes : List Char) (config : Config) (offset : Int) :
    sleeps (coloredRunes runes config offset) = [] := by
  unfold coloredRunes
  generalize runes.enum = l
  induction l with
  | nil => rfl
  | cons x rest ih =>
    rw [List.flatMap_cons, sleeps_append, ih]
    rfl

theorem sleeps_frames (runes : List Char) (config : Config) (offset : Int) (l : List Nat) :
    sleeps (l.flatMap (frameTrace runes config offset)) = List.replicate l.length config.delay := by
  induction l with
  | nil => rfl
  | cons x rest ih =>
    rw [List.flatMap_cons, sleeps_append, ih, frameTrace, sleeps_append, sleeps_append,
      sleeps_coloredRunes]
    rfl

/-- C6: with `animate` set, `animateLine` emits exactly 20 frames, frame
number 0 to 19 in order, each a carriage return followed by every code point
of the line coloured by `rgb` under the configuration whose speed is
`config.speed + frame * 0.1` (nothing else changed), each frame followed by one
wait of `config.delay`; after the 20th frame comes exactly one newline. The
waits of the whole call are 20 waits of `config.delay`. -/
theorem animateLine_frames (line : String) (config : Config) (offset : Int)
    (h : config.animate = true) :
    animateLine line config offset
        = (List.range 20).flatMap (fun frame =>
            [Effect.stdout "\r"]
              ++ (line.toList.enum.flatMap fun jc =>
                  printColored jc.2
                    (rgb ((jc.1 : Int) + offset)
                      { config with speed := config.speed + (frame : ℝ) * 0.1 }).1
                    (rgb ((jc.1 : Int) + offset)
                      { config with speed := config.speed + (frame : ℝ) * 0.1 }).2.1
                    (rgb ((jc.1 : Int) + offset)
                      { config with speed := config.speed + (frame : ℝ) * 0.1 }).2.2)
              ++ [Effect.sleep config.delay])
          ++ [Effect.stdout "\n"]
      ∧ sleeps (animateLine line config offset) = List.replicate 20 config.delay := by
  constructor
  · rw [animateLine_eq line config offset h]
    rfl
  · rw [animateLine_eq line config offset h, sleeps_append, sleeps_frames]
    rfl

/-- C6 (witness): the line "hi" under `animatedRainbow`. -/
theorem animateLine_frames_witness :
    animatedRainbow.animate = true
      ∧ sleeps (animateLine "hi" animatedRainbow 0) = List.replicate 20 100000000 :=
  ⟨rfl, (animateLine_frames "hi" animatedRainbow 0 rfl).2⟩

/-! ## The running offset -/

theorem scanLoop_cons_eq (line : String) (config : Config) (lineOffset : Int) :
    (if config.animate then animateLine line config lineOffset
      else printLine line config lineOffset) = lineTrace config lineOffset line := by
  unfold lineTrace
  cases h : config.animate
  · simp only [Bool.false_eq_true, if_false, printLine_eq]
  · simp only [if_true, animateLine_eq line config lineOffset h]

theorem codePointsBefore_zero (lines : List String) : codePointsBefore lines 0 = 0 := by
  simp [codePointsBefore]

theorem codePointsBefore_succ (line : String) (rest : List String) (N : Nat) :
    codePointsBefore (line :: rest) (N + 1)
      = (line.toList.length : Int) + codePointsBefore rest N := by
  simp [codePointsBefore]

theorem scanLoop_eq (lines : List String) (config : Config) (lineOffset : Int) :
    scanLoop lines config lineOffset
      = (List.range lines.length).flatMap fun N =>
          lineTrace config (lineOffset + codePointsBefore lines N) (lines.getD N "") := by
  induction lines generalizing lineOffset with
  | nil => rfl
  | cons line rest ih =>
    rw [scanLoop, scanLoop_cons_eq, ih, List.length_cons, List.range_succ_eq_map,
      List.flatMap_cons, List.flatMap_map]
    simp only [codePointsBefore_zero, codePointsBefore_succ, add_zero, List.getD_cons_zero,
      List.getD_cons_succ, Function.comp, add_assoc, Nat.succ_eq_add_one]

/-- C4: for every input, `processInput` emits the lines in order, and line `N`
is coloured starting from the index `codePointsBefore input.lines N`, the
number of code points of the lines 0..N-1: its code point at position `j` is
coloured with that total plus `j`. This holds in the plain path and, for each
of the 20 frames, in the animated path; the index is never reset at a line
boundary. The total counts code points, not bytes: after a first line of two
code points in four bytes it is 2. -/
theorem processInput_offsets (input : Reader) (config : Config) :
    ((processInput input config).1
      = (List.range input.lines.length).flatMap fun N =>
          if config.animate then
            (List.range 20).flatMap (fun frame =>
                [Effect.stdout "\r"]
                  ++ coloredRunes (input.lines.getD N "").toList
                      { config with speed := config.speed + (frame : ℝ) * 0.1 }
                      (codePointsBefore input.lines N)
                  ++ [Effect.sleep config.delay])
              ++ [Effect.stdout "\n"]
          else
            coloredRunes (input.lines.getD N "").toList config (codePointsBefore input.lines N)
              ++ [Effect.stdout "\n"])
      ∧ codePointsBefore ["\u00e9\u00e9", "B"] 1 = 2
      ∧ ("\u00e9\u00e9" : String).utf8ByteSize = 4 := by
  refine ⟨?_, by decide, by decide⟩
  simp only [processInput, scanLoop_eq, zero_add]
  rfl

/-! ## The fixture "AB" -/

/-- C8: for the input "AB" in Matrix mode with speed 0, spread 1, frequency
0.1 and no animation, `A` is coloured with rgb(0) = (0, 128, 38) and `B` with
rgb(1) = (0, 140, 42); these are the values of the closed form
(0, trunc(127 * sin(0.1 * i) + 128), trunc(0.3 * green)), which `rgb` follows at
every index; `rgb` is a function of its arguments, so the same call yields the
same triple. -/
theorem matrixFixture_AB :
    rgb 0 matrixFixture = (0, 128, 38)
      ∧ rgb 1 matrixFixture = (0, 140, 42)
      ∧ (∀ i : Int, rgb i matrixFixture =
          (0, toInt (127 * Real.sin (0.1 * (i : ℝ)) + 128),
           toInt (0.3 * (toInt (127 * Real.sin (0.1 * (i : ℝ)) + 128) : ℝ))))
      ∧ (processInput { lines := ["AB"], err := none } matrixFixture).1
          = [Effect.stdout "\x1b[38;2;0;128;38mA\x1b[0m",
             Effect.stdout "\x1b[38;2;0;140;42mB\x1b[0m", Effect.stdout "\n"] := by
  refine ⟨rgb_matrixFixture_zero, rgb_matrixFixture_one, rgb_matrixFixture, ?_⟩
  have hA : ("AB" : String).toList = ['A', 'B'] := rfl
  have h0 : ((0 : Nat) : Int) + 0 = 0 := rfl
  have h1 : ((1 : Nat) : Int) + 0 = 1 := rfl
  have e : matrixFixture.animate = false := rfl
  simp only [processInput, scanLoop, e, Bool.false_eq_true, if_false, printLine_eq, hA,
    coloredRunes, List.enum, List.enumFrom, List.flatMap_cons, List.flatMap_nil, h0, h1,
    rgb_matrixFixture_zero, rgb_matrixFixture_one, printColored, List.append_nil,
    List.cons_append, List.nil_append]
  rfl

/-! ## Mode resolution -/

theorem toLower_neon (unicodeToLower : Char → Char) : ToLower unicodeToLower "neon" = "neon" := by
  unfold ToLower
  rfl

theorem parseColorMode_neon (unicodeToLower : Char → Char) :
    parseColorMode unicodeToLower "neon" = (Rainbow, some "unknown color mode: neon") := by
  unfold parseColorMode
  rw [toLower_neon]
  rfl

/-- C5: for every string `s`, `parseColorMode` returns an error exactly when
the lower-cased `s` is none of rainbow, r, fire, f, ocean, o, matrix, m,
pastel, p; otherwise it returns, without error, the mode whose long name or
single-letter alias the lower-cased `s` is. The string "neon" is rejected, and
a run whose mode flag is "neon" writes only the error message and exits with
code 1. -/
theorem parseColorMode_spec (unicodeToLower : Char → Char) (s : String) :
    ((parseColorMode unicodeToLower s).2 ≠ none ↔
        ToLower unicodeToLower s ∉
          ["rainbow", "r", "fire", "f", "ocean", "o", "matrix", "m", "pastel", "p"])
      ∧ (ToLower unicodeToLower s = "rainbow" ∨ ToLower unicodeToLower s = "r" →
          parseColorMode unicodeToLower s = (Rainbow, none))
      ∧ (ToLower unicodeToLower s = "fire" ∨ ToLower unicodeToLower s = "f" →
          parseColorMode unicodeToLower s = (Fire, none))
      ∧ (ToLower unicodeToLower s = "ocean" ∨ ToLower unicodeToLower s = "o" →
          parseColorMode unicodeToLower s = (Ocean, none))
      ∧ (ToLower unicodeToLower s = "matrix" ∨ ToLower unicodeToLower s = "m" →
          parseColorMode unicodeToLower s = (Matrix, none))
      ∧ (ToLower unicodeToLower s = "pastel" ∨ ToLower unicodeToLower s = "p" →
          parseColorMode unicodeToLower s = (Pastel, none))
      ∧ (parseColorMode unicodeToLower "neon").2 ≠ none
      ∧ (∀ env : Env, env.flagValues.modeStr = "neon" → env.flagValues.help = false →
          main env = ([Effect.stderr "Error: unknown color mode: neon\n"], 1)) := by
  refine ⟨?_, ?_, ?_, ?_, ?_, ?_, ?_, ?_⟩
  · unfold parseColorMode
    generalize ToLower unicodeToLower s = l
    dsimp only
    simp only [List.mem_cons, List.mem_singleton, List.not_mem_nil, or_false, not_or]
    split_ifs with h1 h2 h3 h4 h5
    · simp only [ne_eq, not_true_eq_false, false_iff]
      tauto
    · simp only [ne_eq, not_true_eq_false, false_iff]
      tauto
    · simp only [ne_eq, not_true_eq_false, false_iff]
      tauto
    · simp only [ne_eq, not_true_eq_false, false_iff]
      tauto
    · simp only [ne_eq, not_true_eq_false, false_iff]
      tauto
    · simp only [ne_eq, reduceCtorEq, not_false_eq_true, true_iff]
      tauto
  · intro h
    simp only [parseColorMode, h, if_true]
  · intro h
    unfold parseColorMode
    rcases h with h | h <;> rw [h] <;> rfl
  · intro h
    unfold parseColorMode
    rcases h with h | h <;> rw [h] <;> rfl
  · intro h
    unfold parseColorMode
    rcases h with h | h <;> rw [h] <;> rfl
  · intro h
    unfold parseColorMode
    rcases h with h | h <;> rw [h] <;> rfl
  · rw [parseColorMode_neon]
    simp
  · intro env hm hh
    simp only [main, parseFlags, hm, hh, parseColorMode_neon, Bool.false_eq_true, if_false]
    rfl

/-! ## The file loop -/

theorem fileLoop_append (osOpen : String → Except String Reader) (xs ys : List String)
    (config : Config) :
    fileLoop osOpen (xs ++ ys) config = fileLoop osOpen xs config ++ fileLoop osOpen ys config := by
  induction xs with
  | nil => rfl
  | cons x rest ih =>
    rw [List.cons_append, fileLoop, fileLoop]
    cases h : osOpen x with
    | error e => simp only [ih, List.append_assoc]
    | ok file => simp only [ih, List.append_assoc]

theorem fileLoop_error (osOpen : String → Except String Reader) (f e : String)
    (rest : List String) (config : Config) (h : osOpen f = Except.error e) :
    fileLoop osOpen (f :: rest) config
      = [Effect.stderr ("Error opening " ++ f ++ ": " ++ e ++ "\n")]
        ++ fileLoop osOpen rest config := by
  rw [fileLoop]
  simp only [h]

theorem fileLoop_ok (osOpen : String → Except String Reader) (f : String) (file : Reader)
    (rest : List String) (config : Config) (h : osOpen f = Except.ok file) :
    fileLoop osOpen (f :: rest) config
      = (processInput file config).1 ++ processingReport f (processInput file config).2
        ++ fileLoop osOpen rest config := by
  rw [fileLoop]
  simp only [h, processingReport]

theorem parseFlags_args (u : Char → Char) (pd : String → Option Int) (fv : FlagValues)
    (config : Config) (files args : List String)
    (h : parseFlags u pd fv = Except.ok (config, files)) (hhelp : config.help = false) :
    parseFlags u pd { fv with args := args } = Except.ok (config, args) := by
  unfold parseFlags at h ⊢
  dsimp only at h ⊢
  by_cases hh : fv.help = true
  · rw [if_pos hh] at h
    injection h with h
    injection h with h1 h2
    rw [← h1] at hhelp
    simp only [hh] at hhelp
    exact absurd hhelp (by decide)
  · rw [if_neg hh] at h ⊢
    rcases hm : parseColorMode u fv.modeStr with ⟨mode, _ | err⟩
    · rw [hm] at h
      dsimp only at h ⊢
      cases hd : pd fv.delayStr with
      | none => rw [hd] at h; cases h
      | some delay =>
        rw [hd] at h
        dsimp only at h ⊢
        injection h with h
        injection h with h1 h2
        rw [h1]
    · rw [hm] at h
      cases h

theorem main_files (env : Env) (config : Config) (files : List String)
    (hflags : parseFlags env.unicodeToLower env.parseDuration env.flagValues
      = Except.ok (config, files))
    (hhelp : config.help = false) (hterm : (config.force || env.stdoutIsTerminal) = true)
    (hfiles : files ≠ []) :
    main env = (fileLoop env.osOpen files config, 0) := by
  have hlen : ¬ files.length = 0 := by
    intro h
    exact hfiles (List.length_eq_zero.mp h)
  have ht : (!config.force && !env.stdoutIsTerminal) = false := by
    cases hf : config.force <;> cases hs : env.stdoutIsTerminal <;> simp_all
  simp only [main, hflags, hhelp, ht, hlen, Bool.false_eq_true, if_false]

/-- C9: when a file of the argument list cannot be opened, `main` writes
"Error opening <file>: <error>" to standard error for it and goes on: the files
before it and the files after it are all rendered, and the exit code is 0.
Whatever comes after the failing file is rendered exactly as in a run given
those later files alone, whose exit code is also 0; with two files of which the
first cannot be opened (`before = []`, `later = [g]`) this is the rendering of
the second file as the only argument. -/
theorem main_skips_unopenable (env : Env) (config : Config) (before later : List String)
    (f e : String)
    (hflags : parseFlags env.unicodeToLower env.parseDuration env.flagValues
      = Except.ok (config, before ++ f :: later))
    (hhelp : config.help = false) (hterm : (config.force || env.stdoutIsTerminal) = true)
    (hopen : env.osOpen f = Except.error e) :
    main env
        = (fileLoop env.osOpen before config
            ++ [Effect.stderr ("Error opening " ++ f ++ ": " ++ e ++ "\n")]
            ++ fileLoop env.osOpen later config, 0)
      ∧ (later ≠ [] → main (withArgs env later) = (fileLoop env.osOpen later config, 0)) := by
  constructor
  · rw [main_files env config (before ++ f :: later) hflags hhelp hterm (by simp),
      fileLoop_append, fileLoop_error env.osOpen f e later config hopen, List.append_assoc]
  · intro hl
    exact main_files (withArgs env later) config later
      (parseFlags_args env.unicodeToLower env.parseDuration env.flagValues config _ later
        hflags hhelp) hhelp hterm hl

theorem parseFlags_fixtureEnv :
    parseFlags fixtureEnv.unicodeToLower fixtureEnv.parseDuration fixtureEnv.flagValues
      = Except.ok (matrixFixture, ["missing.txt", "ab.txt"]) := by
  have h : parseColorMode id "matrix" = (Matrix, none) := by
    unfold parseColorMode ToLower
    rfl
  simp only [parseFlags, fixtureEnv, h, Bool.false_eq_true, if_false, matrixFixture]

theorem fileLoop_fixtureEnv_ab :
    fileLoop fixtureEnv.osOpen ["ab.txt"] matrixFixture
      = [Effect.stdout "\x1b[38;2;0;128;38mA\x1b[0m",
         Effect.stdout "\x1b[38;2;0;140;42mB\x1b[0m", Effect.stdout "\n"] := by
  have hA : ("AB" : String).toList = ['A', 'B'] := rfl
  have h0 : ((0 : Nat) : Int) + 0 = 0 := rfl
  have h1 : ((1 : Nat) : Int) + 0 = 1 := rfl
  have e : matrixFixture.animate = false := rfl
  rw [fileLoop_ok fixtureEnv.osOpen "ab.txt" { lines := ["AB"], err := none } [] matrixFixture
    rfl]
  simp only [processInput, scanLoop, e, Bool.false_eq_true, if_false, printLine_eq, hA,
    coloredRunes, List.enum, List.enumFrom, List.flatMap_cons, List.flatMap_nil, h0, h1,
    rgb_matrixFixture_zero, rgb_matrixFixture_one, printColored, fileLoop, processingReport,
    List.append_nil, List.cons_append, List.nil_append]
  rfl

/-- C9 (witness): the run `fixtureEnv`, given `missing.txt` and then `ab.txt`,
reports the first file, renders the second, and exits with code 0; the run
given `ab.txt` alone renders the same and exits with code 0. -/
theorem main_skips_unopenable_witness :
    main fixtureEnv
        = ([Effect.stderr
              "Error opening missing.txt: open missing.txt: no such file or directory\n",
            Effect.stdout "\x1b[38;2;0;128;38mA\x1b[0m",
            Effect.stdout "\x1b[38;2;0;140;42mB\x1b[0m", Effect.stdout "\n"], 0)
      ∧ main (withArgs fixtureEnv ["ab.txt"])
        = ([Effect.stdout "\x1b[38;2;0;128;38mA\x1b[0m",
            Effect.stdout "\x1b[38;2;0;140;42mB\x1b[0m", Effect.stdout "\n"], 0) := by
  have h := main_skips_unopenable fixtureEnv matrixFixture [] ["ab.txt"] "missing.txt"
    "open missing.txt: no such file or directory" parseFlags_fixtureEnv rfl rfl rfl
  rw [h.1, h.2 (by decide), fileLoop_fixtureEnv_ab]
  exact ⟨rfl, rfl⟩

/-! ## One offset per input source -/

theorem scanLoop_cons_lineTrace (line : String) (rest : List String) (config : Config)
    (lineOffset : Int) :
    scanLoop (line :: rest) config lineOffset
      = lineTrace config lineOffset line
        ++ scanLoop rest config (lineOffset + (line.toList.length : Int)) := by
  rw [scanLoop, scanLoop_cons_eq]

theorem lineTrace_matrixFixture_A (total : Int) (r g b : Int)
    (h : rgb total matrixFixture = (r, g, b)) (c : Char) :
    lineTrace matrixFixture total (String.singleton c)
      = [Effect.stdout ("\x1b[38;2;" ++ toString r ++ ";" ++ toString g ++ ";" ++ toString b
          ++ "m" ++ String.singleton c ++ "\x1b[0m"), Effect.stdout "\n"] := by
  have e : matrixFixture.animate = false := rfl
  have hc : (String.singleton c).toList = [c] := rfl
  have h0 : ((0 : Nat) : Int) + total = total := by simp
  simp only [lineTrace, e, Bool.false_eq_true, if_false, hc, coloredRunes, List.enum,
    List.enumFrom, List.flatMap_cons, List.flatMap_nil, h0, h, printColored, List.append_nil,
    List.cons_append, List.nil_append]

/-- C10: the colouring index restarts at 0 for every input source. For every
file of the argument list that can be opened, at any place in the list, `main`'s
loop emits what precedes, then `processInput` of that file, started at offset
0, then what follows; the first line of the file is thus emitted with its first
code point at index 0, whatever was processed before. So the rendering of
files `xs` then `ys` is the rendering of `xs` followed by that of `ys` alone.
It differs in general from the rendering of the concatenation read as one
stream: for the files "A" and "B" in the Matrix fixture, `B` is coloured
rgb(0) = (0,128,38) as a second file but rgb(1) = (0,140,42) in the stream. -/
theorem fileLoop_restarts_offset (osOpen : String → Except String Reader) (config : Config)
    (before later : List String) (name : String) (file : Reader) (line : String)
    (lines : List String) (hopen : osOpen name = Except.ok file)
    (hlines : file.lines = line :: lines) :
    fileLoop osOpen (before ++ name :: later) config
        = fileLoop osOpen before config
          ++ ((processInput file config).1 ++ processingReport name (processInput file config).2)
          ++ fileLoop osOpen later config
      ∧ (∃ t, fileLoop osOpen (before ++ name :: later) config
          = fileLoop osOpen before config ++ lineTrace config 0 line ++ t)
      ∧ (∀ xs ys : List String, fileLoop osOpen (xs ++ ys) config
          = fileLoop osOpen xs config ++ fileLoop osOpen ys config)
      ∧ fileLoop abFiles ["a.txt", "b.txt"] matrixFixture
          = [Effect.stdout "\x1b[38;2;0;128;38mA\x1b[0m", Effect.stdout "\n",
             Effect.stdout "\x1b[38;2;0;128;38mB\x1b[0m", Effect.stdout "\n"]
      ∧ (processInput { lines := ["A", "B"], err := none } matrixFixture).1
          = [Effect.stdout "\x1b[38;2;0;128;38mA\x1b[0m", Effect.stdout "\n",
             Effect.stdout "\x1b[38;2;0;140;42mB\x1b[0m", Effect.stdout "\n"]
      ∧ fileLoop abFiles ["a.txt", "b.txt"] matrixFixture
          ≠ (processInput { lines := ["A", "B"], err := none } matrixFixture).1 := by
  have h1 : fileLoop osOpen (before ++ name :: later) config
        = fileLoop osOpen before config
          ++ ((processInput file config).1 ++ processingReport name (processInput file config).2)
          ++ fileLoop osOpen later config := by
    rw [fileLoop_append, fileLoop_ok osOpen name file later config hopen]
    simp only [List.append_assoc]
  have hA : lineTrace matrixFixture 0 "A"
      = [Effect.stdout "\x1b[38;2;0;128;38mA\x1b[0m", Effect.stdout "\n"] :=
    lineTrace_matrixFixture_A 0 0 128 38 rgb_matrixFixture_zero 'A'
  have hB0 : lineTrace matrixFixture 0 "B"
      = [Effect.stdout "\x1b[38;2;0;128;38mB\x1b[0m", Effect.stdout "\n"] :=
    lineTrace_matrixFixture_A 0 0 128 38 rgb_matrixFixture_zero 'B'
  have hB1 : lineTrace matrixFixture 1 "B"
      = [Effect.stdout "\x1b[38;2;0;140;42mB\x1b[0m", Effect.stdout "\n"] :=
    lineTrace_matrixFixture_A 1 0 140 42 rgb_matrixFixture_one 'B'
  have h4 : fileLoop abFiles ["a.txt", "b.txt"] matrixFixture
      = [Effect.stdout "\x1b[38;2;0;128;38mA\x1b[0m", Effect.stdout "\n",
         Effect.stdout "\x1b[38;2;0;128;38mB\x1b[0m", Effect.stdout "\n"] := by
    rw [fileLoop_ok abFiles "a.txt" { lines := ["A"], err := none } ["b.txt"] matrixFixture rfl,
      fileLoop_ok abFiles "b.txt" { lines := ["B"], err := none } [] matrixFixture rfl]
    simp only [processInput, scanLoop, scanLoop_cons_eq, hA, hB0, fileLoop,
      processingReport, List.append_nil, List.cons_append, List.nil_append]
  have h5 : (processInput { lines := ["A", "B"], err := none } matrixFixture).1
      = [Effect.stdout "\x1b[38;2;0;128;38mA\x1b[0m", Effect.stdout "\n",
         Effect.stdout "\x1b[38;2;0;140;42mB\x1b[0m", Effect.stdout "\n"] := by
    have hl : (0 : Int) + (("A" : String).toList.length : Int) = 1 := rfl
    simp only [processInput, scanLoop, scanLoop_cons_eq, hl, hA, hB1,
      List.append_nil, List.cons_append, List.nil_append]
  refine ⟨h1, ?_, fun xs ys => fileLoop_append osOpen xs ys config, h4, h5, ?_⟩
  · refine ⟨scanLoop lines config (0 + (line.toList.length : Int))
        ++ processingReport name (processInput file config).2
        ++ fileLoop osOpen later config, ?_⟩
    rw [h1]
    simp only [processInput, hlines, scanLoop_cons_lineTrace, List.append_assoc]
  · rw [h4, h5]
    decide

/-- C10 (witness): `b.txt` after `a.txt`. -/
theorem fileLoop_restarts_offset_witness :
    ∃ t, fileLoop abFiles (["a.txt"] ++ "b.txt" :: []) matrixFixture
      = fileLoop abFiles ["a.txt"] matrixFixture ++ lineTrace matrixFixture 0 "B" ++ t :=
  (fileLoop_restarts_offset abFiles matrixFixture ["a.txt"] [] "b.txt"
    { lines := ["B"], err := none } "B" [] rfl rfl).2.1

end Gololcat
